/-
Verification of the LearningLens scoring-and-recommendation core.

This file is a shallow embedding, in Lean 4, of the pure scoring and
recommendation algorithms of the `data/*.py` modules (questionnaire,
analysis, math_pathway, global_exams, course_recommender, pathway_mapper,
career_advisor), together with theorems settling the behavioural claims
about them.

Modelling conventions:
- Python dicts that are used in insertion order are modelled as association
  lists (`List (key × value)`); `collections.Counter` is modelled as an
  association list in first-insertion order, with `most_common` modelled as
  a stable insertion sort by descending count (CPython's `sorted` is stable
  and dict iteration is in insertion order, so ties keep first-seen order).
- Fallible Python code (IndexError / KeyError / TypeError paths) is
  modelled with `Except String`.
- Machine floats that only ever hold small decimal fractions (weights in
  tenths and halves, popularity/10) are modelled exactly, by scaling to
  integers; each scaled definition documents the scale factor.
- Fields of the static tables that no embedded operation ever reads
  (question text, option labels, websites, benefit bullet lists, …) are
  omitted from the corresponding structures.
-/
import Mathlib

namespace LearningLens

/-! ## Generic helpers: Python dict / Counter modelling -/

/-- Lookup in an association list, the model of `d.get(k)` / `d[k]` on a
Python dict (first binding wins; a real dict has unique keys). -/
def pyLookup {α : Type} (l : List (String × α)) (k : String) : Option α :=
  match l.find? (fun p => p.1 = k) with
  | some p => some p.2
  | none => none

/-- Model of `k in d` for a Python dict rendered as an association list. -/
def pyHasKey {α : Type} (l : List (String × α)) (k : String) : Bool :=
  (pyLookup l k).isSome

/-- A `collections.Counter` in first-insertion order: list of
(key, count) pairs, one entry per distinct key. -/
def Counter : Type := List (String × Nat)

/-- `counter[k] += 1`: bump an existing entry in place, else append a new
entry with count 1 (Python dicts append new keys at the end). -/
def counterIncr (c : Counter) (k : String) : Counter :=
  match c with
  | [] => [(k, 1)]
  | (k', n) :: rest =>
    if k' = k then (k', n + 1) :: rest else (k', n) :: counterIncr rest k

/-- Insert a (key, count) pair into a list already sorted by descending
count, placing it after every entry with a strictly greater count and
before existing equal counts. `mostCommon` always inserts the
earliest-remaining entry, so this realizes the stable descending sort of
CPython (ties keep first-insertion order). -/
def insertByCountDesc (p : String × Nat) : List (String × Nat) → List (String × Nat)
  | [] => [p]
  | q :: rest =>
    if p.2 < q.2 then q :: insertByCountDesc p rest else p :: q :: rest

/-- Model of `Counter.most_common()` (without the length cap): stable sort
of the counter entries by descending count; ties keep first-insertion
order. Callers apply `List.take` for `most_common(n)`. -/
def mostCommon (c : Counter) : List (String × Nat) :=
  match c with
  | [] => []
  | p :: rest => insertByCountDesc p (mostCommon rest)

/-! ## Questionnaire catalog (`data/questionnaire.py`)

Only the fields the analyzer reads are embedded: `id`, `category` and the
three kinds of answer mapping. `trait_mapping` may be a list (indexed by
the answer) or a single string (source stores either), so it is a tagged
variant here. -/

/-- The list-or-scalar shape of `trait_mapping` in the source tables. -/
inductive TraitMapping where
  | ofList : List String → TraitMapping
  | single : String → TraitMapping
deriving DecidableEq

structure Question where
  id : String
  category : String
  learning_style_mapping : Option (List String)
  trait_mapping : Option TraitMapping
  interest_mapping : Option (List String)
deriving DecidableEq

/-- Question with a `learning_style_mapping`. -/
def lsQ (i : String) (m : List String) : Question :=
  ⟨i, "learning_style", some m, none, none⟩

/-- Question in category `cat` with a list-shaped `trait_mapping`. -/
def trQ (i cat : String) (m : List String) : Question :=
  ⟨i, cat, none, some (TraitMapping.ofList m), none⟩

/-- Question in category `cat` with an `interest_mapping`. -/
def inQ (i cat : String) (m : List String) : Question :=
  ⟨i, cat, none, none, some m⟩

/-- `COMMON_QUESTIONS`. -/
def COMMON_QUESTIONS : List Question :=
  [ lsQ "ls_1" ["visual", "auditory", "kinesthetic", "logical"],
    lsQ "ls_2" ["visual", "auditory", "kinesthetic", "logical"],
    lsQ "ls_3" ["social", "independent", "guided", "flexible"],
    trQ "ps_1" "problem_solving" ["example-based", "help-seeking", "persistent", "reflective"],
    trQ "bh_1" "behavior" ["structured", "independent", "distractible", "guidance-seeking"],
    trQ "cr_1" "creativity" ["structured", "combinatorial", "innovative", "iterative"],
    trQ "tm_1" "time_management" ["proactive", "methodical", "pressure-driven", "consistent"],
    trQ "cm_1" "communication" ["visual", "written", "demonstrative", "verbal"],
    inQ "in_1" "interests" ["math", "arts", "tech", "language"],
    inQ "in_2" "interests" ["tech", "entrepreneurship", "arts", "science"] ]

/-- `ELEMENTARY_QUESTIONS`. -/
def ELEMENTARY_QUESTIONS : List Question :=
  [ lsQ "elem_1" ["visual", "auditory", "kinesthetic", "logical"],
    trQ "elem_2" "problem_solving" ["pattern_recognition"],
    trQ "elem_3" "creativity" ["mechanical", "visual", "educational", "entertainment"],
    trQ "elem_4" "behavior" ["leadership", "cooperative", "innovative", "independent"],
    inQ "elem_5" "interests" ["tech", "arts", "physical", "language"] ]

/-- `MIDDLE_SCHOOL_QUESTIONS`. -/
def MIDDLE_SCHOOL_QUESTIONS : List Question :=
  [ lsQ "mid_1" ["kinesthetic", "logical", "visual", "social"],
    trQ "mid_2" "problem_solving" ["analytical"],
    trQ "mid_3" "creativity" ["educational", "social", "practical", "creative"],
    trQ "mid_4" "time_management"
      ["confidence-building", "challenge-seeking", "deadline-driven", "organized"],
    inQ "mid_5" "interests" ["tech", "entrepreneurship", "media", "science"],
    trQ "mid_6" "communication" ["leadership", "independent", "collaborative", "innovative"] ]

/-- `HIGH_SCHOOL_QUESTIONS`. -/
def HIGH_SCHOOL_QUESTIONS : List Question :=
  [ lsQ "high_1" ["visual", "auditory", "kinesthetic", "social"],
    trQ "high_2" "problem_solving" ["pattern_recognition"],
    trQ "high_3" "creativity" ["innovative", "practical", "visionary"],
    trQ "high_4" "time_management" ["structured", "focused", "intuitive", "collaborative"],
    inQ "high_5" "interests" ["tech", "entrepreneurship", "creative", "science"],
    trQ "high_6" "communication" ["visual", "written", "interactive", "verbal"],
    trQ "high_7" "behavior" ["analytical", "experiential", "guidance-seeking", "innovative"],
    trQ "high_8" "open_ended" ["future_orientation", "goal_setting", "self_awareness"] ]

/-- `get_questions_for_age`: common questions plus the inclusive age band
(elementary 5–10, middle 11–13, high 14–18); outside all bands only the
common questions. -/
def get_questions_for_age (age : Int) : List Question :=
  COMMON_QUESTIONS ++
    (if 5 ≤ age ∧ age ≤ 10 then ELEMENTARY_QUESTIONS
     else if 11 ≤ age ∧ age ≤ 13 then MIDDLE_SCHOOL_QUESTIONS
     else if 14 ≤ age ∧ age ≤ 18 then HIGH_SCHOOL_QUESTIONS
     else [])

/-! ## Static profile tables of `data/analysis.py` -/

structure StyleProfile where
  name : String
  styleDescription : String
  strategies : List String
  ideal_environment : String
deriving DecidableEq

/-- `LEARNING_STYLES`. -/
def LEARNING_STYLES : List (String × StyleProfile) :=
  [ ("visual",
     ⟨"Visual Learner",
      "Learns best through seeing information, including pictures, diagrams, and written instructions.",
      ["Use visual aids like charts, maps, and diagrams",
       "Highlight important information in notes",
       "Watch educational videos and demonstrations",
       "Create mind maps to organize information"],
      "Well-organized, visually stimulating spaces with minimal visual distractions."⟩),
    ("auditory",
     ⟨"Auditory Learner",
      "Learns best through listening to information, including lectures, discussions, and verbal instructions.",
      ["Record and listen to lectures or explanations",
       "Participate in group discussions",
       "Read information aloud",
       "Use mnemonic devices and rhymes"],
      "Quiet spaces for concentration with opportunities for discussion and verbal processing."⟩),
    ("kinesthetic",
     ⟨"Kinesthetic Learner",
      "Learns best through hands-on activities, physical movement, and practical experiences.",
      ["Engage in hands-on experiments and activities",
       "Take frequent breaks to move around",
       "Use physical objects to represent concepts",
       "Apply learning to real-world situations"],
      "Spaces that allow movement and hands-on activities with opportunities for experiential learning."⟩),
    ("logical",
     ⟨"Logical Learner",
      "Learns best through reasoning, systems, and patterns, with a preference for structured information.",
      ["Organize information into logical categories",
       "Look for patterns and relationships",
       "Break complex problems into steps",
       "Create systems and frameworks for understanding"],
      "Structured environments with clear expectations and opportunities for analytical thinking."⟩),
    ("social",
     ⟨"Social Learner",
      "Learns best through interaction with others, group work, and collaborative activities.",
      ["Study with peers or in groups",
       "Discuss ideas and concepts with others",
       "Teach concepts to someone else",
       "Participate in collaborative projects"],
      "Collaborative spaces that encourage interaction and group work."⟩),
    ("independent",
     ⟨"Independent Learner",
      "Learns best through self-directed study, with a preference for working alone.",
      ["Set personal learning goals",
       "Create individual study plans",
       "Seek resources for self-directed learning",
       "Reflect on personal progress"],
      "Quiet, personal spaces with minimal distractions and opportunities for self-directed work."⟩) ]

structure TraitProfile where
  name : String
  traitDescription : String
  strengths : List String
deriving DecidableEq

/-- `TRAITS`. -/
def TRAITS : List (String × TraitProfile) :=
  [ ("creative",
     ⟨"Creative Thinker",
      "Shows originality and imagination in approaching problems and tasks.",
      ["Generating unique ideas and solutions",
       "Thinking outside conventional boundaries",
       "Making unexpected connections between concepts",
       "Expressing ideas in innovative ways"]⟩),
    ("analytical",
     ⟨"Analytical Thinker",
      "Excels at breaking down complex information and identifying patterns and relationships.",
      ["Solving complex problems systematically",
       "Identifying logical patterns and inconsistencies",
       "Evaluating information critically",
       "Making decisions based on careful analysis"]⟩),
    ("persistent",
     ⟨"Persistent Worker",
      "Shows determination and resilience when facing challenges or setbacks.",
      ["Maintaining focus on long-term goals",
       "Overcoming obstacles through sustained effort",
       "Continuing to try different approaches when initial attempts fail",
       "Showing patience with difficult tasks"]⟩),
    ("leadership",
     ⟨"Natural Leader",
      "Takes initiative in group settings and helps guide others toward goals.",
      ["Organizing and directing group activities",
       "Motivating others to participate",
       "Taking responsibility for outcomes",
       "Communicating vision and goals effectively"]⟩),
    ("collaborative",
     ⟨"Team Collaborator",
      "Works effectively with others and contributes positively to group efforts.",
      ["Sharing ideas and resources with others",
       "Listening to and incorporating different perspectives",
       "Supporting team members and building consensus",
       "Adapting to group dynamics"]⟩),
    ("organized",
     ⟨"Organized Planner",
      "Excels at planning, organizing, and managing time and resources effectively.",
      ["Creating and following structured plans",
       "Managing time efficiently",
       "Keeping track of details and requirements",
       "Prioritizing tasks appropriately"]⟩) ]

structure InterestProfile where
  name : String
  interestDescription : String
  related_careers : List String
  shining_star_tracks : List String
deriving DecidableEq

/-- `INTERESTS`. -/
def INTERESTS : List (String × InterestProfile) :=
  [ ("tech",
     ⟨"Technology & Computing",
      "Shows interest in computers, programming, robotics, and digital technologies.",
      ["Software Developer", "Robotics Engineer", "Data Scientist", "AI Specialist",
       "Game Designer"],
      ["Coding Path", "Robotics Program", "AI & Machine Learning"]⟩),
    ("arts",
     ⟨"Creative Arts",
      "Shows interest in visual arts, music, design, and creative expression.",
      ["Graphic Designer", "Digital Artist", "Multimedia Producer", "UX/UI Designer",
       "Creative Director"],
      ["Digital Arts Program", "Creative Design Track", "Multimedia Production"]⟩),
    ("entrepreneurship",
     ⟨"Entrepreneurship & Business",
      "Shows interest in business concepts, innovation, and entrepreneurial ventures.",
      ["Entrepreneur", "Business Consultant", "Marketing Specialist", "Product Manager",
       "Innovation Strategist"],
      ["Young Entrepreneurs Program", "Business Innovation Track", "Leadership Academy"]⟩),
    ("science",
     ⟨"Scientific Research",
      "Shows interest in scientific inquiry, experimentation, and discovery.",
      ["Research Scientist", "Environmental Specialist", "Biomedical Researcher",
       "Laboratory Technician", "Science Educator"],
      ["Science Exploration Program", "Research Methods Track", "STEM Academy"]⟩),
    ("language",
     ⟨"Communication & Language",
      "Shows interest in reading, writing, languages, and communication.",
      ["Content Creator", "Journalist", "Technical Writer", "Communications Specialist",
       "Digital Marketing Manager"],
      ["Creative Writing Program", "Digital Communication Track", "Public Speaking Academy"]⟩) ]

/-! ## Response analyzer (`LearningStyleAnalyzer`) -/

/-- A `ResponseSet`: the submitted answers, as a dict in iteration order
(question id ↦ selected answer index). -/
def ResponseSet : Type := List (String × Nat)

structure LearningStylesOut where
  primary : String
  secondary : List String
  styleDescription : String
  strategies : List String
  ideal_environment : String
deriving DecidableEq

structure TraitsOut where
  top_traits : List String
  descriptions : List String
  strengths : List (List String)
deriving DecidableEq

structure InterestsOut where
  top_interests : List String
  descriptions : List String
  related_careers : List (List String)
  shining_star_tracks : List (List String)
deriving DecidableEq

structure DimensionScores where
  logical_thinking : Nat
  creativity : Nat
  social_skills : Nat
  self_direction : Nat
deriving DecidableEq

structure AnalysisResult where
  learning_styles : LearningStylesOut
  traits : TraitsOut
  interests : InterestsOut
  dimension_scores : DimensionScores
deriving DecidableEq

/-- `LearningStyleAnalyzer._find_question`: first question with the given
id in the age-scoped question list, `none` when absent. -/
def find_question (question_id : String) (age : Int) : Option Question :=
  (get_questions_for_age age).find? (fun q => q.id = question_id)

/-- The per-response counting loop of `analyze_responses`. State is the
triple of counters (learning-style, trait, interest). An unknown question
id is skipped. A learning-style answer is read as
`question["learning_style_mapping"][answer_index]` with NO bounds check in
the source, so an out-of-range index there is an `IndexError`; the trait
branch checks `len(list) > answer_index` (skipping otherwise) and a scalar
`trait_mapping` always counts; the interest branch requires
`len(list) > answer_index` and is skipped otherwise. -/
def tallyResponses (age : Int) :
    List (String × Nat) → Counter × Counter × Counter →
    Except String (Counter × Counter × Counter)
  | [], acc => Except.ok acc
  | (question_id, answer_index) :: rest, (ls, tr, intr) =>
    match find_question question_id age with
    | none => tallyResponses age rest (ls, tr, intr)
    | some q =>
      if q.category = "learning_style" ∧ q.learning_style_mapping.isSome then
        match q.learning_style_mapping with
        | some m =>
          match m.get? answer_index with
          | some style => tallyResponses age rest (counterIncr ls style, tr, intr)
          | none => Except.error "IndexError: list index out of range"
        | none => tallyResponses age rest (ls, tr, intr)
      else
        match q.trait_mapping with
        | some (TraitMapping.ofList l) =>
          match l.get? answer_index with
          | some t => tallyResponses age rest (ls, counterIncr tr t, intr)
          | none => tallyResponses age rest (ls, tr, intr)
        | some (TraitMapping.single t) =>
          tallyResponses age rest (ls, counterIncr tr t, intr)
        | none =>
          match q.interest_mapping with
          | some l =>
            match l.get? answer_index with
            | some i => tallyResponses age rest (ls, tr, counterIncr intr i)
            | none => tallyResponses age rest (ls, tr, intr)
          | none => tallyResponses age rest (ls, tr, intr)

/-- `LearningStyleAnalyzer._calculate_dimension_score`. The source
computes `int((positive_count / max_possible) * 100)` in IEEE doubles;
since `max_possible ≤ 4` here, that truncation coincides with exact
integer floor division `100 * positive_count / max_possible`, which is
what this definition uses. An answer index ≥ 2 counts as positive; with
no relevant id present the score is the neutral default 50.
`dimCounts` is the (positive_count, max_possible) counting loop; it
recurses where the source iterates, which has the same net counts since
counting is order-independent. -/
def dimCounts (responses : ResponseSet) : List String → Nat × Nat
  | [] => (0, 0)
  | q_id :: rest =>
    let pm := dimCounts responses rest
    match pyLookup responses q_id with
    | some answer_index =>
      (if 2 ≤ answer_index then pm.1 + 1 else pm.1, pm.2 + 1)
    | none => pm

def calculate_dimension_score (responses : ResponseSet)
    (relevant_question_ids : List String) : Nat :=
  let pm := dimCounts responses relevant_question_ids
  if pm.2 = 0 then 50 else (100 * pm.1) / pm.2

/-- The four dimension scores as assembled in `analyze_responses`. -/
def dimensionScores (responses : ResponseSet) : DimensionScores :=
  ⟨calculate_dimension_score responses ["ps_1", "mid_2", "high_2"],
   calculate_dimension_score responses ["cr_1", "elem_3", "mid_3", "high_3"],
   calculate_dimension_score responses ["ls_3", "mid_6", "high_6"],
   calculate_dimension_score responses ["bh_1", "tm_1", "high_4"]⟩

/-- `primary_learning_style`: head of `most_common(1)`, defaulting to
"visual" on an empty counter. -/
def primaryStyleOf (learning_style_counts : Counter) : String :=
  match mostCommon learning_style_counts with
  | [] => "visual"
  | p :: _ => p.1

/-- `secondary_learning_styles`: `most_common(3)[1:3]`, or `[]` when the
counter has at most one distinct style. -/
def secondaryStylesOf (learning_style_counts : Counter) : List String :=
  if 1 < learning_style_counts.length then
    (((mostCommon learning_style_counts).take 3).drop 1).map Prod.fst
  else []

/-- Top-3 keys of a counter (`most_common(3)`), used for `top_traits` and
`top_interests`. -/
def topThreeOf (counts : Counter) : List String :=
  ((mostCommon counts).take 3).map Prod.fst

/-- The result-record assembly at the end of `analyze_responses`, given
the three filled counters. The lookup
`self.learning_styles[primary_learning_style]` has no fallback in the
source, so a most-frequent style outside the six profiled ones (e.g.
"guided" from question ls_3) is a `KeyError`. -/
def assembleResults (learning_style_counts trait_counts interest_counts : Counter)
    (responses : ResponseSet) : Except String AnalysisResult :=
  match pyLookup LEARNING_STYLES (primaryStyleOf learning_style_counts) with
  | none => Except.error "KeyError"
  | some profile =>
    Except.ok
      { learning_styles :=
          ⟨primaryStyleOf learning_style_counts,
           secondaryStylesOf learning_style_counts,
           profile.styleDescription, profile.strategies, profile.ideal_environment⟩,
        traits :=
          ⟨topThreeOf trait_counts,
           (topThreeOf trait_counts).map (fun t =>
             match pyLookup TRAITS t with
             | some p => p.traitDescription
             | none => ""),
           (topThreeOf trait_counts).map (fun t =>
             match pyLookup TRAITS t with
             | some p => p.strengths
             | none => [])⟩,
        interests :=
          ⟨topThreeOf interest_counts,
           (topThreeOf interest_counts).map (fun i =>
             match pyLookup INTERESTS i with
             | some p => p.interestDescription
             | none => ""),
           (topThreeOf interest_counts).map (fun i =>
             match pyLookup INTERESTS i with
             | some p => p.related_careers
             | none => []),
           (topThreeOf interest_counts).map (fun i =>
             match pyLookup INTERESTS i with
             | some p => p.shining_star_tracks
             | none => [])⟩,
        dimension_scores := dimensionScores responses }

/-- `LearningStyleAnalyzer.analyze_responses`: tally the responses (which
can raise, see `tallyResponses`), then pick the winners and build the
result record (which can raise on the style-profile lookup, see
`assembleResults`). -/
def analyze_responses (responses : ResponseSet) (age : Int) :
    Except String AnalysisResult :=
  match tallyResponses age responses ([], [], []) with
  | Except.error e => Except.error e
  | Except.ok (learning_style_counts, trait_counts, interest_counts) =>
    assembleResults learning_style_counts trait_counts interest_counts responses

/-! ## Claim-level reading of the dimension-score formula -/

/-- A relevant question id is present in the responses. -/
def dimPresent (responses : ResponseSet) (q_id : String) : Bool :=
  (pyLookup responses q_id).isSome

/-- A relevant question id is present with answer index ≥ 2 (a "positive"
answer). -/
def dimPositive (responses : ResponseSet) (q_id : String) : Bool :=
  match pyLookup responses q_id with
  | some answer_index => 2 ≤ answer_index
  | none => false

/-- The dimension-score formula as the amended claim reads it:
`⌊100·p/m⌋` with `p` the positive count and `m` the present count of the
dimension's relevant ids, and the neutral default 50 when `m = 0`. -/
def dimScoreSpec (responses : ResponseSet) (ids : List String) : Nat :=
  let m := (ids.filter (dimPresent responses)).length
  let p := (ids.filter (dimPositive responses)).length
  if m = 0 then 50 else (100 * p) / m

theorem dimCounts_eq_filters (responses : ResponseSet) (ids : List String) :
    dimCounts responses ids =
    ((ids.filter (dimPositive responses)).length,
     (ids.filter (dimPresent responses)).length) := by
  induction ids with
  | nil => simp [dimCounts]
  | cons q rest ih =>
    cases h : pyLookup responses q with
    | none =>
      have h1 : dimPositive responses q = false := by simp [dimPositive, h]
      have h2 : dimPresent responses q = false := by simp [dimPresent, h]
      simp [dimCounts, h, h1, h2, ih]
    | some i =>
      have h2 : dimPresent responses q = true := by simp [dimPresent, h]
      by_cases hi : 2 ≤ i
      · have h1 : dimPositive responses q = true := by
          simp [dimPositive, h]; exact hi
        simp [dimCounts, h, h1, h2, hi, ih]
      · have h1 : dimPositive responses q = false := by
          simp [dimPositive, h]; omega
        simp [dimCounts, h, h1, h2, hi, ih]

/-- The source's `_calculate_dimension_score` computes exactly the amended
claim's formula. -/
theorem calculate_dimension_score_eq_spec (responses : ResponseSet)
    (ids : List String) :
    calculate_dimension_score responses ids = dimScoreSpec responses ids := by
  unfold calculate_dimension_score dimScoreSpec
  rw [dimCounts_eq_filters]

theorem dimPositive_le_dimPresent (responses : ResponseSet) (ids : List String) :
    (ids.filter (dimPositive responses)).length ≤
    (ids.filter (dimPresent responses)).length := by
  induction ids with
  | nil => simp
  | cons q rest ih =>
    cases h : pyLookup responses q with
    | none =>
      have h1 : dimPositive responses q = false := by simp [dimPositive, h]
      have h2 : dimPresent responses q = false := by simp [dimPresent, h]
      simpa [h1, h2] using ih
    | some i =>
      have h2 : dimPresent responses q = true := by simp [dimPresent, h]
      by_cases hi : 2 ≤ i
      · have h1 : dimPositive responses q = true := by
          simp [dimPositive, h]; exact hi
        simp only [List.filter_cons_of_pos h1, List.filter_cons_of_pos h2,
          List.length_cons]
        omega
      · have h1 : ¬ dimPositive responses q = true := by
          simp [dimPositive, h]; omega
        simp only [List.filter_cons_of_neg h1, List.filter_cons_of_pos h2,
          List.length_cons]
        omega

theorem dimScoreSpec_le_100 (responses : ResponseSet) (ids : List String) :
    dimScoreSpec responses ids ≤ 100 := by
  unfold dimScoreSpec
  set m := (ids.filter (dimPresent responses)).length with hm
  set p := (ids.filter (dimPositive responses)).length with hp
  by_cases h : m = 0
  · simp [h]
  · simp only [if_neg h]
    have hpm : p ≤ m := by rw [hp, hm]; exact dimPositive_le_dimPresent responses ids
    have h1 : 100 * p ≤ 100 * m := Nat.mul_le_mul_left 100 hpm
    calc (100 * p) / m ≤ (100 * m) / m := Nat.div_le_div_right h1
    _ = 100 := Nat.mul_div_cancel 100 (Nat.pos_of_ne_zero h)

/-- Whenever `analyze_responses` returns a result, the dimension scores in
it are the ones computed by `dimensionScores`. -/
theorem analyze_responses_dims (responses : ResponseSet) (age : Int)
    (out : AnalysisResult) (h : analyze_responses responses age = Except.ok out) :
    out.dimension_scores = dimensionScores responses := by
  unfold analyze_responses at h
  split at h
  · exact absurd h (by simp)
  · rename_i counts
    unfold assembleResults at h
    split at h
    · exact absurd h (by simp)
    · cases h
      rfl

/-- The analysis result of an empty `ResponseSet`: primary style
"visual" with the visual profile text, no secondary styles, no traits, no
interests, and every dimension at the neutral default 50. -/
def emptyAnalysisResult : AnalysisResult :=
  { learning_styles :=
      ⟨"visual", [],
       "Learns best through seeing information, including pictures, diagrams, and written instructions.",
       ["Use visual aids like charts, maps, and diagrams",
        "Highlight important information in notes",
        "Watch educational videos and demonstrations",
        "Create mind maps to organize information"],
       "Well-organized, visually stimulating spaces with minimal visual distractions."⟩,
    traits := ⟨[], [], []⟩,
    interests := ⟨[], [], [], []⟩,
    dimension_scores := ⟨50, 50, 50, 50⟩ }

/-! ## Claims C1, C2, C7, C8 -/

/-- C1: the claim says `analyze_responses` never raises, silently skipping
unknown ids and out-of-range answer indexes. The code does skip unknown
ids and bounds-checks trait and interest mappings, but reads
`learning_style_mapping[answer_index]` without a bounds check: the
response `{"ls_1": 4}` (index 4 into a 4-element mapping) raises
`IndexError` for every age, because `ls_1` is a common question. -/
theorem analyze_responses_ls_index_error :
    analyze_responses [("ls_1", 4)] 10 =
      Except.error "IndexError: list index out of range" := rfl

/-- C2 (counterexample): on `{"ps_1": 2, "mid_2": 2, "high_2": 0}` at age
12, the logical-thinking dimension has p = 2 positives among m = 3 present
relevant ids; the code returns `int((2/3)*100) = 66`, while the claim's
`round(100·2/3) = 67`. -/
theorem dimension_score_truncates_not_rounds :
    (analyze_responses [("ps_1", 2), ("mid_2", 2), ("high_2", 0)] 12).map
        (fun r => r.dimension_scores.logical_thinking) = Except.ok 66 ∧
    round ((100 * 2 : ℚ) / 3) = (67 : ℤ) ∧ (66 : ℤ) ≠ 67 := by
  refine ⟨rfl, ?_, by decide⟩
  norm_num [round_eq]

/-- C2 (amended): every dimension score returned by `analyze_responses`
equals `⌊100·p/m⌋` (truncating division, not rounding) over that
dimension's fixed relevant ids, is 50 when m = 0 (built into
`dimScoreSpec`), and lies in [0, 100]. -/
theorem dimension_scores_floor_formula (responses : ResponseSet) (age : Int)
    (out : AnalysisResult) (h : analyze_responses responses age = Except.ok out) :
    out.dimension_scores.logical_thinking =
        dimScoreSpec responses ["ps_1", "mid_2", "high_2"] ∧
    out.dimension_scores.creativity =
        dimScoreSpec responses ["cr_1", "elem_3", "mid_3", "high_3"] ∧
    out.dimension_scores.social_skills =
        dimScoreSpec responses ["ls_3", "mid_6", "high_6"] ∧
    out.dimension_scores.self_direction =
        dimScoreSpec responses ["bh_1", "tm_1", "high_4"] ∧
    out.dimension_scores.logical_thinking ≤ 100 ∧
    out.dimension_scores.creativity ≤ 100 ∧
    out.dimension_scores.social_skills ≤ 100 ∧
    out.dimension_scores.self_direction ≤ 100 := by
  have hd := analyze_responses_dims responses age out h
  rw [hd]
  unfold dimensionScores
  refine ⟨calculate_dimension_score_eq_spec _ _, calculate_dimension_score_eq_spec _ _,
    calculate_dimension_score_eq_spec _ _, calculate_dimension_score_eq_spec _ _,
    ?_, ?_, ?_, ?_⟩ <;>
    simp only [calculate_dimension_score_eq_spec] <;>
    exact dimScoreSpec_le_100 _ _

/-- Witness for `dimension_scores_floor_formula` at the empty response
set. -/
theorem dimension_scores_floor_formula_witness :
    emptyAnalysisResult.dimension_scores.logical_thinking =
        dimScoreSpec [] ["ps_1", "mid_2", "high_2"] ∧
    emptyAnalysisResult.dimension_scores.creativity =
        dimScoreSpec [] ["cr_1", "elem_3", "mid_3", "high_3"] ∧
    emptyAnalysisResult.dimension_scores.social_skills =
        dimScoreSpec [] ["ls_3", "mid_6", "high_6"] ∧
    emptyAnalysisResult.dimension_scores.self_direction =
        dimScoreSpec [] ["bh_1", "tm_1", "high_4"] ∧
    emptyAnalysisResult.dimension_scores.logical_thinking ≤ 100 ∧
    emptyAnalysisResult.dimension_scores.creativity ≤ 100 ∧
    emptyAnalysisResult.dimension_scores.social_skills ≤ 100 ∧
    emptyAnalysisResult.dimension_scores.self_direction ≤ 100 :=
  dimension_scores_floor_formula [] 0 emptyAnalysisResult rfl

/-- C7: `analyze_responses` is deterministic — for a fixed (responses,
age) pair, any two computed results are equal. In this embedding the
analyzer is a pure function of its arguments and the static tables, which
is exactly what the source computes (no randomness or clock input). -/
theorem analyze_responses_deterministic (responses : ResponseSet) (age : Int)
    (r₁ r₂ : Except String AnalysisResult)
    (h₁ : analyze_responses responses age = r₁)
    (h₂ : analyze_responses responses age = r₂) : r₁ = r₂ := by
  rw [← h₁, ← h₂]

/-- Witness for `analyze_responses_deterministic` on a concrete call. -/
theorem analyze_responses_deterministic_witness :
    analyze_responses [("in_1", 0)] 9 = analyze_responses [("in_1", 0)] 9 :=
  analyze_responses_deterministic [("in_1", 0)] 9 _ _ rfl rfl

/-- C8: analyzing an empty `ResponseSet` at any age succeeds with primary
learning style "visual", no secondary styles, empty top-traits and
top-interests, and all four dimension scores equal to 50. -/
theorem analyze_responses_empty (age : Int) :
    analyze_responses [] age = Except.ok emptyAnalysisResult := rfl

/-! ## Math pathway generator (`data/math_pathway.py`)

`_determine_math_pathway_type` accumulates its pathway scores in Python
floats (IEEE binary64): integer table values and secondary-style halves
are exact in binary64, but the trait contributions `score * 0.7` and
`score * 0.4` and the running additions round. That rounding can break
ties between scores that are equal in exact arithmetic, and the selection
loop compares with strict `>`, so the scores are modelled bit-faithfully:
a double is a dyadic rational `m * 2^e`, every arithmetic result is
rounded to 53 significant bits with round-to-nearest, ties-to-even, and
the weight literals 0.7 and 0.4 are the binary64 values of those decimals
(justified by `DBL07_is_nearest` / `DBL04_is_nearest`). The magnitudes
reached here stay far from binary64 overflow and subnormal range, so this
is exactly the computation CPython performs. Score triples are
(abacus, vedic, integrated). -/

/-- `style_scores` of `_determine_math_pathway_type`, in source order. -/
def mathStyleScores : List (String × (Nat × Nat × Nat)) :=
  [ ("visual", (3, 1, 2)),
    ("kinesthetic", (3, 1, 2)),
    ("logical", (1, 3, 2)),
    ("independent", (2, 2, 2)),
    ("auditory", (0, 2, 2)),
    ("social", (1, 1, 3)) ]

/-- `trait_scores` of `_determine_math_pathway_type`, in source order. -/
def mathTraitScores : List (String × (Nat × Nat × Nat)) :=
  [ ("analytical", (2, 3, 2)),
    ("creative", (1, 2, 3)),
    ("persistent", (3, 2, 2)),
    ("leadership", (1, 1, 3)),
    ("collaborative", (1, 1, 3)),
    ("organized", (3, 2, 2)) ]

/-- A dyadic rational `m * 2^e`, the value space of the binary64 numbers
reached by this scoring (representations are not normalized; operations
compare by value). -/
structure Dy where
  m : Int
  e : Int
deriving DecidableEq

/-- The exact rational value of a dyadic. -/
def dyValQ (x : Dy) : ℚ := (x.m : ℚ) * (2 : ℚ) ^ x.e

/-- Bit length of a natural number, written with explicit fuel so that
the kernel can evaluate it; `n` itself is enough fuel since a positive
`n` has at most `n` bits. -/
def bitLenAux : Nat → Nat → Nat
  | 0, _ => 0
  | fuel + 1, n => if n = 0 then 0 else bitLenAux fuel (n / 2) + 1

def bitLen (n : Nat) : Nat := bitLenAux n n

/-- Round a dyadic to at most 53 significant bits — round-to-nearest,
ties-to-even, the binary64 rounding for results in normal range. -/
def dyRound53 (x : Dy) : Dy :=
  let n := x.m.natAbs
  let bits := bitLen n
  if bits ≤ 53 then x
  else
    let shift := bits - 53
    let q := n / 2 ^ shift
    let r := n % 2 ^ shift
    let half := 2 ^ (shift - 1)
    let q2 :=
      if r < half then q
      else if half < r then q + 1
      else if q % 2 = 0 then q else q + 1
    ⟨if x.m < 0 then -(q2 : Int) else (q2 : Int), x.e + shift⟩

/-- Exact sum of two dyadics (before rounding). -/
def dyAdd (x y : Dy) : Dy :=
  ⟨x.m * 2 ^ (x.e - min x.e y.e).toNat + y.m * 2 ^ (y.e - min x.e y.e).toNat,
   min x.e y.e⟩

/-- binary64 addition. -/
def fladd (x y : Dy) : Dy := dyRound53 (dyAdd x y)

/-- binary64 multiplication. -/
def flmul (x y : Dy) : Dy := dyRound53 ⟨x.m * y.m, x.e + y.e⟩

/-- The binary64 comparison `x < y` (doubles compare by exact value). -/
def dyLt (x y : Dy) : Bool :=
  x.m * 2 ^ (x.e - min x.e y.e).toNat < y.m * 2 ^ (y.e - min x.e y.e).toNat

def dyOfInt (n : Int) : Dy := ⟨n, 0⟩

/-- The binary64 value of the literal `0.7`. -/
def DBL07 : Dy := ⟨3152519739159347, -52⟩

/-- The binary64 value of the literal `0.4`. -/
def DBL04 : Dy := ⟨3602879701896397, -53⟩

/-- `DBL07` really is the binary64 nearest to 7/10: its value equals
`6305039478318694 * 2^(-53)`, a significand of exactly 53 bits in the
binade [1/2, 1), and `|7/10 - 6305039478318694 * 2^(-53)| < 2^(-54)`
(strictly within half an ulp of that binade), stated over the integers
after clearing denominators. -/
theorem DBL07_is_nearest :
    2 ^ 52 ≤ 2 * 3152519739159347 ∧ 2 * 3152519739159347 < 2 ^ 53 ∧
    (7 * 2 ^ 54 - 10 * (4 * 3152519739159347) : Int).natAbs < 10 := by
  refine ⟨by norm_num, by norm_num, by decide⟩

/-- `DBL04` really is the binary64 nearest to 2/5: its value equals
`7205759403792794 * 2^(-54)`, a significand of exactly 53 bits in the
binade [1/4, 1/2), and `|2/5 - 7205759403792794 * 2^(-54)| < 2^(-55)`
(strictly within half an ulp of that binade). -/
theorem DBL04_is_nearest :
    2 ^ 52 ≤ 2 * 3602879701896397 ∧ 2 * 3602879701896397 < 2 ^ 53 ∧
    (2 * 2 ^ 55 - 5 * (4 * 3602879701896397) : Int).natAbs < 5 := by
  refine ⟨by norm_num, by norm_num, by decide⟩

/-- The `pathway_scores` accumulation of `_determine_math_pathway_type`
in binary64: the primary style adds integer table values (exact), each
secondary style adds `score / 2` (an exact half in binary64), and the
first three traits add `score * weight` with weights 1.0, 0.7, 0.4 as
doubles; every float addition and multiplication rounds as CPython's
doubles do. Styles or traits missing from the tables contribute
nothing. -/
def mathPathwayScores (primary_style : String)
    (secondary_styles top_traits : List String) : Dy × Dy × Dy :=
  let base : Dy × Dy × Dy :=
    match pyLookup mathStyleScores primary_style with
    | some s => (dyOfInt s.1, dyOfInt s.2.1, dyOfInt s.2.2)
    | none => (dyOfInt 0, dyOfInt 0, dyOfInt 0)
  let withSec := secondary_styles.foldl
    (fun acc st =>
      match pyLookup mathStyleScores st with
      | some s =>
        (fladd acc.1 ⟨(s.1 : Int), -1⟩, fladd acc.2.1 ⟨(s.2.1 : Int), -1⟩,
         fladd acc.2.2 ⟨(s.2.2 : Int), -1⟩)
      | none => acc)
    base
  ((top_traits.take 3).zip [dyOfInt 1, DBL07, DBL04]).foldl
    (fun acc tw =>
      match pyLookup mathTraitScores tw.1 with
      | some s =>
        (fladd acc.1 (flmul (dyOfInt s.1) tw.2),
         fladd acc.2.1 (flmul (dyOfInt s.2.1) tw.2),
         fladd acc.2.2 (flmul (dyOfInt s.2.2) tw.2))
      | none => acc)
    withSec

/-- One iteration of the final selection loop: replace the running
(max_score, best_pathway) only on a strictly higher float score. -/
def loopStepDy (acc entry : Dy × String) : Dy × String :=
  if dyLt acc.1 entry.1 then entry else acc

/-- The final selection loop of `_determine_math_pathway_type`: start at
(0, "integrated") and scan abacus, vedic, integrated in dict order. -/
def selectBestPathway (a v i : Dy) : String :=
  (loopStepDy (loopStepDy (loopStepDy (dyOfInt 0, "integrated") (a, "abacus"))
    (v, "vedic")) (i, "integrated")).2

/-- `MathematicsPathwayGenerator._determine_math_pathway_type`. -/
def determine_math_pathway_type (primary_style : String)
    (secondary_styles top_traits : List String) : String :=
  let s := mathPathwayScores primary_style secondary_styles top_traits
  selectBestPathway s.1 s.2.1 s.2.2

/-- `MathematicsPathwayGenerator._determine_level_index`: ≤ 8 → 0
(Beginner), ≤ 11 → 1 (Intermediate), ≤ 14 → 2 (Advanced), else 3
(Expert). -/
def determine_level_index (age : Int) : Nat :=
  if age ≤ 8 then 0
  else if age ≤ 11 then 1
  else if age ≤ 14 then 2
  else 3

/-- `dyLt` agrees with the exact-value order on dyadics. -/
theorem dyLt_iff (x y : Dy) : dyLt x y = true ↔ dyValQ x < dyValQ y := by
  have h2 : (0 : ℚ) < (2 : ℚ) ^ (min x.e y.e) := zpow_pos (by norm_num) _
  have key : ∀ z : Dy, min x.e y.e ≤ z.e →
      ((z.m * 2 ^ (z.e - min x.e y.e).toNat : ℤ) : ℚ) * (2 : ℚ) ^ (min x.e y.e) =
        dyValQ z := by
    intro z hz
    unfold dyValQ
    push_cast
    rw [mul_assoc, ← zpow_natCast (2 : ℚ) (z.e - min x.e y.e).toNat,
        ← zpow_add₀ (by norm_num : (2 : ℚ) ≠ 0),
        Int.toNat_of_nonneg (sub_nonneg.mpr hz)]
    have he : z.e - min x.e y.e + min x.e y.e = z.e := by ring
    rw [he]
  have hx := key x (min_le_left _ _)
  have hy := key y (min_le_right _ _)
  unfold dyLt
  rw [decide_eq_true_eq]
  constructor
  · intro h
    rw [← hx, ← hy]
    exact mul_lt_mul_of_pos_right (by exact_mod_cast h) h2
  · intro h
    rw [← hx, ← hy] at h
    exact_mod_cast lt_of_mul_lt_mul_right h (le_of_lt h2)

/-- The selection loop returns the earliest of abacus, vedic, integrated
attaining the maximum of the float scores (by exact value), defaulting
to "integrated" when none is strictly positive. -/
theorem selectBestPathway_spec (a v i : Dy) :
    selectBestPathway a v i =
      if dyValQ v ≤ dyValQ a ∧ dyValQ i ≤ dyValQ a ∧ 0 < dyValQ a then "abacus"
      else if dyValQ i ≤ dyValQ v ∧ 0 < dyValQ v then "vedic"
      else "integrated" := by
  have h0 : dyValQ (dyOfInt 0) = 0 := by simp [dyValQ, dyOfInt]
  have hd : ∀ x y : Dy, (dyLt x y = true) ↔ dyValQ x < dyValQ y := dyLt_iff
  have hdf : ∀ x y : Dy, ¬ dyValQ x < dyValQ y → ¬ (dyLt x y = true) :=
    fun x y h hc => h ((hd x y).mp hc)
  unfold selectBestPathway loopStepDy
  dsimp only
  by_cases h1 : 0 < dyValQ a
  · have b1 : dyLt (dyOfInt 0) a = true := (hd _ _).mpr (by rw [h0]; exact h1)
    rw [if_pos b1]
    dsimp only
    by_cases h2 : dyValQ a < dyValQ v
    · rw [if_pos ((hd _ _).mpr h2)]
      dsimp only
      by_cases h3 : dyValQ v < dyValQ i
      · rw [if_pos ((hd _ _).mpr h3)]
        dsimp only
        rw [if_neg (fun hc => absurd hc.1 (not_le.mpr h2)),
            if_neg (fun hc => absurd hc.1 (not_le.mpr h3))]
      · rw [if_neg (hdf _ _ h3)]
        dsimp only
        rw [if_neg (fun hc => absurd hc.1 (not_le.mpr h2)),
            if_pos ⟨not_lt.mp h3, h1.trans h2⟩]
    · rw [if_neg (hdf _ _ h2)]
      dsimp only
      by_cases h3 : dyValQ a < dyValQ i
      · rw [if_pos ((hd _ _).mpr h3)]
        dsimp only
        rw [if_neg (fun hc => absurd hc.2.1 (not_le.mpr h3)),
            if_neg (fun hc => absurd (hc.1.trans (not_lt.mp h2)) (not_le.mpr h3))]
      · rw [if_neg (hdf _ _ h3)]
        dsimp only
        rw [if_pos ⟨not_lt.mp h2, not_lt.mp h3, h1⟩]
  · have b1 : ¬ (dyLt (dyOfInt 0) a = true) :=
      fun hc => h1 (by rw [← h0]; exact (hd _ _).mp hc)
    rw [if_neg b1]
    dsimp only
    by_cases h2 : 0 < dyValQ v
    · have b2 : dyLt (dyOfInt 0) v = true := (hd _ _).mpr (by rw [h0]; exact h2)
      rw [if_pos b2]
      dsimp only
      by_cases h3 : dyValQ v < dyValQ i
      · rw [if_pos ((hd _ _).mpr h3)]
        dsimp only
        rw [if_neg (fun hc => absurd hc.2.2 h1),
            if_neg (fun hc => absurd hc.1 (not_le.mpr h3))]
      · rw [if_neg (hdf _ _ h3)]
        dsimp only
        rw [if_neg (fun hc => absurd hc.2.2 h1), if_pos ⟨not_lt.mp h3, h2⟩]
    · have b2 : ¬ (dyLt (dyOfInt 0) v = true) :=
        fun hc => h2 (by rw [← h0]; exact (hd _ _).mp hc)
      rw [if_neg b2]
      dsimp only
      by_cases h3 : 0 < dyValQ i
      · have b3 : dyLt (dyOfInt 0) i = true := (hd _ _).mpr (by rw [h0]; exact h3)
        rw [if_pos b3]
        dsimp only
        rw [if_neg (fun hc => absurd hc.2.2 h1),
            if_neg (fun hc => absurd hc.2 h2)]
      · have b3 : ¬ (dyLt (dyOfInt 0) i = true) :=
          fun hc => h3 (by rw [← h0]; exact (hd _ _).mp hc)
        rw [if_neg b3]
        dsimp only
        rw [if_neg (fun hc => absurd hc.2.2 h1),
            if_neg (fun hc => absurd hc.2 h2)]

/-! ## Claims C5, C6 -/

/-- C5 (counterexample): the claim says age 10 yields math level index 0,
but the code's boundaries are ≤ 8 / ≤ 11 / ≤ 14, so age 10 is already
level index 1 (Intermediate). -/
theorem level_index_age_10_not_0 :
    determine_level_index 10 = 1 ∧ determine_level_index 10 ≠ 0 := by
  constructor <;> decide

/-- C5 (amended): the age-band boundary scenario as the code computes it:
age 10 → level index 1, age 11 → 1, age 14 → 2, age 15 → 3. -/
theorem level_index_boundaries :
    determine_level_index 10 = 1 ∧ determine_level_index 11 = 1 ∧
    determine_level_index 14 = 2 ∧ determine_level_index 15 = 3 := by
  refine ⟨?_, ?_, ?_, ?_⟩ <;> decide

/-- The weighted pathway scores as claim C6 reads them: exact arithmetic
at scale ×10 (primary 10, secondary 5, trait ranks 10 / 7 / 4). This is
the claim's idealisation of the source's float computation, kept only to
exhibit where the two disagree. -/
def claimedExactScores (primary_style : String)
    (secondary_styles top_traits : List String) : Nat × Nat × Nat :=
  let addScaled := fun (acc s : Nat × Nat × Nat) (w : Nat) =>
    (acc.1 + w * s.1, acc.2.1 + w * s.2.1, acc.2.2 + w * s.2.2)
  let base : Nat × Nat × Nat :=
    match pyLookup mathStyleScores primary_style with
    | some s => addScaled (0, 0, 0) s 10
    | none => (0, 0, 0)
  let withSec := secondary_styles.foldl
    (fun acc st =>
      match pyLookup mathStyleScores st with
      | some s => addScaled acc s 5
      | none => acc)
    base
  ((top_traits.take 3).zip [10, 7, 4]).foldl
    (fun acc tw =>
      match pyLookup mathTraitScores tw.1 with
      | some s => addScaled acc s tw.2
      | none => acc)
    withSec

/-- The claim's selection rule over a score triple: earliest of abacus,
vedic, integrated attaining the maximum; integrated when all are zero. -/
def claimedSelection (s : Nat × Nat × Nat) : String :=
  if s.2.1 ≤ s.1 ∧ s.2.2 ≤ s.1 ∧ 0 < s.1 then "abacus"
  else if s.2.2 ≤ s.2.1 ∧ 0 < s.2.1 then "vedic"
  else "integrated"

set_option maxRecDepth 8192 in
/-- C6 (counterexample): the claim's exact-arithmetic earliest-argmax
rule is false of the float code. For primary "visual", secondary styles
["independent", "social"] and traits ["persistent", "creative",
"organized"], the exact ×10 scores are (94, 67, 94) — a tie the claim
breaks toward the earlier "abacus" — but in binary64 the two 9.4s differ:
abacus accumulates to 5291729562160332 * 2^(-49) and integrated to
5291729562160333 * 2^(-49) (the 0.7 / 0.4 products round differently on
the two paths), so the source's strict-greater loop ends on
"integrated". -/
theorem math_pathway_tie_broken_by_rounding :
    determine_math_pathway_type "visual" ["independent", "social"]
        ["persistent", "creative", "organized"] = "integrated" ∧
    (mathPathwayScores "visual" ["independent", "social"]
        ["persistent", "creative", "organized"]).1 = ⟨5291729562160332, -49⟩ ∧
    (mathPathwayScores "visual" ["independent", "social"]
        ["persistent", "creative", "organized"]).2.2 = ⟨5291729562160333, -49⟩ ∧
    claimedExactScores "visual" ["independent", "social"]
        ["persistent", "creative", "organized"] = (94, 67, 94) ∧
    claimedSelection (94, 67, 94) = "abacus" ∧
    ("integrated" : String) ≠ "abacus" := by
  exact ⟨by decide, by decide, by decide, by decide, by decide, by decide⟩

/-- C6 (amended): the selected math pathway type is the earliest of
abacus, vedic, integrated attaining the highest binary64 score as the
source computes it (primary style at full weight, secondary styles at
half, first three traits at the double weights 1.0 / 0.7 / 0.4); with an
all-zero score vector the "integrated" default survives (both if-branches
false); and in particular primary style "logical" with no secondary
styles and no traits selects "vedic". Scores that tie in exact decimal
arithmetic can be broken either way by the float rounding (see the
counterexample), so the ranking is stated on the exact values `dyValQ`
of the float scores. -/
theorem math_pathway_type_argmax (primary_style : String)
    (secondary_styles top_traits : List String) :
    (determine_math_pathway_type primary_style secondary_styles top_traits =
      (let s := mathPathwayScores primary_style secondary_styles top_traits
       if dyValQ s.2.1 ≤ dyValQ s.1 ∧ dyValQ s.2.2 ≤ dyValQ s.1 ∧
           0 < dyValQ s.1 then "abacus"
       else if dyValQ s.2.2 ≤ dyValQ s.2.1 ∧ 0 < dyValQ s.2.1 then "vedic"
       else "integrated")) ∧
    determine_math_pathway_type "logical" [] [] = "vedic" :=
  ⟨selectBestPathway_spec _ _ _, by decide⟩


/-! ## Global exam recommender (`data/global_exams.py`)

Only the exam fields read by `_select_recommended_exams` (name and
description, for the interest substring match) are embedded; the
elementary age-band catalog suffices for the claims below, since the
selection function takes the band's category dict as an argument. The
category weights are tenths, modelled at scale ×10, and the exam scores
(base 1.0 plus 0.5 per matching interest) at scale ×2. -/

structure Exam where
  name : String
  examDescription : String
deriving DecidableEq, BEq

/-- `self.examinations["elementary"]`, category by category in source
order. -/
def elementaryExaminations : List (String × List Exam) :=
  [ ("academic",
     [⟨"International Schools Assessment (ISA)",
       "Assessment for international schools measuring reading, math, and science"⟩,
      ⟨"ASSET (Assessment of Scholastic Skills through Educational Testing)",
       "Diagnostic test assessing conceptual understanding across subjects"⟩,
      ⟨"Cambridge Primary Checkpoint",
       "Assessments for Cambridge Primary students in English, Math, and Science"⟩]),
    ("aptitude",
     [⟨"Cognitive Abilities Test (CogAT)",
       "Measures reasoning abilities in verbal, quantitative, and nonverbal areas"⟩,
      ⟨"Naglieri Nonverbal Ability Test (NNAT)",
       "Nonverbal test of general ability using geometric shapes and patterns"⟩,
      ⟨"Otis-Lennon School Ability Test (OLSAT)",
       "Measures abstract thinking and reasoning ability"⟩]),
    ("competition",
     [⟨"International Mathematics Olympiad (IMO) - Elementary Level",
       "Mathematics competition for elementary students"⟩,
      ⟨"International English Olympiad (IEO)",
       "English language and comprehension competition"⟩,
      ⟨"International Science Olympiad (ISO)",
       "Science competition covering age-appropriate scientific concepts"⟩,
      ⟨"Math Kangaroo",
       "International mathematical competition with age-appropriate problems"⟩]),
    ("talent_search",
     [⟨"Johns Hopkins Center for Talented Youth (CTY)",
       "Talent search program identifying academically gifted young students"⟩,
      ⟨"Duke Talent Identification Program (TIP)",
       "Talent search identifying academically talented students"⟩]),
    ("certification",
     [⟨"Cambridge English: Young Learners (YLE)",
       "English language certification for young learners"⟩,
      ⟨"DELF Prim",
       "French language certification for young learners"⟩]) ]

/-- `category_weights` of `_select_recommended_exams` (×10), per primary
learning style, in source order. -/
def examCategoryWeights : List (String × List (String × Nat)) :=
  [ ("visual",
     [("academic", 7), ("aptitude", 8), ("competition", 6), ("talent_search", 7),
      ("certification", 6)]),
    ("auditory",
     [("academic", 8), ("aptitude", 7), ("competition", 5), ("talent_search", 6),
      ("certification", 7)]),
    ("kinesthetic",
     [("academic", 6), ("aptitude", 7), ("competition", 8), ("talent_search", 7),
      ("certification", 6)]),
    ("logical",
     [("academic", 7), ("aptitude", 9), ("competition", 8), ("talent_search", 8),
      ("certification", 6)]),
    ("social",
     [("academic", 7), ("aptitude", 6), ("competition", 7), ("talent_search", 6),
      ("certification", 7)]),
    ("independent",
     [("academic", 8), ("aptitude", 8), ("competition", 7), ("talent_search", 8),
      ("certification", 7)]) ]

/-- The all-0.7 default weights used for an unknown primary style (×10). -/
def defaultExamWeights : List (String × Nat) :=
  [("academic", 7), ("aptitude", 7), ("competition", 7), ("talent_search", 7),
   ("certification", 7)]

/-- `interest_category_map` of `_select_recommended_exams`. -/
def interestCategoryMap : List (String × List String) :=
  [ ("technology", ["certification", "competition"]),
    ("arts", ["talent_search", "certification"]),
    ("entrepreneurship", ["certification", "academic"]),
    ("science", ["competition", "talent_search"]),
    ("language", ["certification", "academic"]),
    ("mathematics", ["competition", "aptitude"]) ]

/-- `weights[k] += d` (every bumped key exists in the weight tables). -/
def bumpWeight (w : List (String × Nat)) (k : String) (d : Nat) :
    List (String × Nat) :=
  w.map (fun p => if p.1 = k then (p.1, p.2 + d) else p)

/-- The weight preparation of `_select_recommended_exams` (×10): style
base table (or the 0.7 default), then the fixed trait bumps, then +0.1
per mapped category of each top interest. -/
def adjustedExamWeights (primary_style : String)
    (top_traits top_interests : List String) : List (String × Nat) :=
  let weights := (pyLookup examCategoryWeights primary_style).getD defaultExamWeights
  let weights := if "analytical" ∈ top_traits then
      bumpWeight (bumpWeight weights "aptitude" 1) "competition" 1 else weights
  let weights := if "creative" ∈ top_traits then
      bumpWeight weights "talent_search" 1 else weights
  let weights := if "persistent" ∈ top_traits then
      bumpWeight (bumpWeight weights "competition" 1) "certification" 1 else weights
  let weights := if "leadership" ∈ top_traits then
      bumpWeight weights "talent_search" 1 else weights
  top_interests.foldl
    (fun w interest =>
      match pyLookup interestCategoryMap interest with
      | some cats => cats.foldl (fun w c => bumpWeight w c 1) w
      | none => w)
    weights

/-- Model of the Python substring test `needle in haystack` on lists of
characters (the empty needle matches everywhere). -/
def isPrefixList : List Char → List Char → Bool
  | [], _ => true
  | _ :: _, [] => false
  | a :: as, b :: bs => a = b && isPrefixList as bs

def containsList (pat : List Char) : List Char → Bool
  | [] => pat.isEmpty
  | c :: cs => isPrefixList pat (c :: cs) || containsList pat cs

/-- `needle in haystack` on strings. -/
def pyInStr (needle haystack : String) : Bool :=
  containsList needle.toList haystack.toList

/-- Per-exam score (×2): base 1.0, plus 0.5 for every top interest whose
lowercase form occurs in the exam's lowercase name or description. -/
def examScore (top_interests : List String) (e : Exam) : Nat :=
  2 + top_interests.countP (fun interest =>
    pyInStr interest.toLower e.name.toLower ||
    pyInStr interest.toLower e.examDescription.toLower)

/-- CPython's `scored_exams.sort(reverse=True)` on (score, exam-dict)
tuples compares the exam dicts whenever two scores are equal, which
raises `TypeError` for distinct dicts; the model flags any equal-score
pair of distinct exams as that error. -/
def scoredTieExists : List (Nat × Exam) → Bool
  | [] => false
  | x :: rest =>
    rest.any (fun y => x.1 == y.1 && !(x.2 == y.2)) || scoredTieExists rest

/-- Insertion into a list sorted by descending score (tie-free whenever
it is actually reached, see `scoredTieExists`). -/
def insertScoredDesc (p : Nat × Exam) : List (Nat × Exam) → List (Nat × Exam)
  | [] => [p]
  | q :: rest =>
    if p.1 < q.1 then q :: insertScoredDesc p rest else p :: q :: rest

def sortScoredDesc : List (Nat × Exam) → List (Nat × Exam)
  | [] => []
  | p :: rest => insertScoredDesc p (sortScoredDesc rest)

/-- The per-category selection loop of `_select_recommended_exams`:
`num_to_select = max(1, int(len(exams) * weight))` (exact at scale ×10),
score, sort descending (raising on score ties between distinct exams,
as the source does on its dict-carrying tuples), take the top slice. -/
def selectExamsLoop (weights : List (String × Nat)) (top_interests : List String) :
    List (String × List Exam) → Except String (List (String × List Exam))
  | [] => Except.ok []
  | (category, exams) :: rest =>
    let weight := (pyLookup weights category).getD 7
    let num_to_select := max 1 ((exams.length * weight) / 10)
    let scored_exams := exams.map (fun e => (examScore top_interests e, e))
    if scoredTieExists scored_exams then
      Except.error "TypeError: unorderable dict instances in tuple comparison"
    else
      match selectExamsLoop weights top_interests rest with
      | Except.ok out =>
        Except.ok
          ((category, ((sortScoredDesc scored_exams).take num_to_select).map Prod.snd)
            :: out)
      | Except.error e => Except.error e

/-- `GlobalExamRecommender._select_recommended_exams`. -/
def select_recommended_exams (age_group_exams : List (String × List Exam))
    (primary_style : String) (top_traits top_interests : List String) :
    Except String (List (String × List Exam)) :=
  selectExamsLoop (adjustedExamWeights primary_style top_traits top_interests)
    top_interests age_group_exams

/-- The age banding of `recommend_examinations` (≤ 10 elementary, ≤ 13
middle, else high). -/
def examAgeGroup (age : Int) : String :=
  if age ≤ 10 then "elementary" else if age ≤ 13 then "middle" else "high"

/-! ## Claim C4 -/

/-- C4: the claim says the selection never raises and returns the
highest-scoring `num_to_select` exams. But the source sorts
(score, exam-dict) tuples with `sort(reverse=True)`: as soon as two exams
in a category tie on score — e.g. any profile with no top interests, for
which every exam keeps the base score 1.0 — CPython falls through to
comparing the dicts and raises `TypeError`. Concretely, an elementary
student (age 8) with primary style "visual" and no top traits or
interests crashes on the very first category. -/
theorem select_recommended_exams_tie_raises :
    select_recommended_exams elementaryExaminations "visual" [] [] =
      Except.error "TypeError: unorderable dict instances in tuple comparison" ∧
    examAgeGroup 8 = "elementary" := by
  constructor
  · rfl
  · rfl

/-! ## Course recommender (`data/course_recommender.py`)

`recommend_courses` is the one stateful operation: its final loop writes a
`personalized_benefit` key into the selected course dicts, which are the
very dict objects stored in the static catalog `self.courses`. The
embedding threads the catalog as explicit state: the function returns the
recommended courses together with the catalog after those writes
(addressed by course id, which is unique in the catalog). The fit score
uses `popularity / 10` plus integer bonuses, all multiples of 0.1, so it
is modelled exactly at scale ×10. A course record carries
`personalized_benefit : Option String` for the key the source adds
dynamically (`none` = key absent, as in the static catalog). -/

structure Course where
  id : String
  title : String
  courseDescription : String
  benefits : String
  duration : String
  age_range : String
  learning_styles : List String
  traits : List String
  discount_eligible : Bool
  next_start_date : String
  popularity : Nat
  personalized_benefit : Option String
deriving DecidableEq

/-- `CourseRecommender.__init__`: the static course catalog. -/
def courseCatalog : List (String × List Course) :=
  [ ("tech",
     [⟨"TECH101", "Introduction to Coding",
       "A beginner-friendly introduction to programming concepts using block-based coding.",
       "Builds logical thinking and introduces fundamental programming concepts.",
       "8 weeks", "8-14",
       ["visual", "logical", "kinesthetic"],
       ["analytical", "persistent", "creative"],
       true, "June 5, 2025", 95, none⟩,
      ⟨"TECH102", "Robotics Fundamentals",
       "Hands-on introduction to robotics using LEGO Mindstorms or similar platforms.",
       "Develops problem-solving skills and introduces engineering concepts.",
       "10 weeks", "9-16",
       ["kinesthetic", "logical", "visual"],
       ["analytical", "persistent", "creative"],
       true, "May 15, 2025", 90, none⟩,
      ⟨"TECH201", "Python Programming",
       "Learn Python programming language fundamentals through practical projects.",
       "Builds real-world coding skills applicable to many technology fields.",
       "12 weeks", "12-18",
       ["logical", "visual", "independent"],
       ["analytical", "persistent", "organized"],
       true, "June 10, 2025", 88, none⟩,
      ⟨"TECH202", "Web Development Basics",
       "Introduction to HTML, CSS, and JavaScript for creating interactive websites.",
       "Develops creative and technical skills for the digital world.",
       "10 weeks", "13-18",
       ["visual", "logical", "independent"],
       ["creative", "analytical", "organized"],
       true, "May 20, 2025", 85, none⟩,
      ⟨"TECH301", "AI & Machine Learning",
       "Introduction to artificial intelligence concepts and machine learning applications.",
       "Prepares students for cutting-edge technology careers.",
       "14 weeks", "14-18",
       ["logical", "visual", "independent"],
       ["analytical", "persistent", "organized"],
       false, "July 1, 2025", 92, none⟩]),
    ("arts",
     [⟨"ARTS101", "Digital Art Fundamentals",
       "Introduction to digital art creation using tablets and beginner-friendly software.",
       "Develops creative expression and introduces digital tools.",
       "8 weeks", "8-16",
       ["visual", "kinesthetic", "independent"],
       ["creative", "persistent", "organized"],
       true, "May 12, 2025", 88, none⟩,
      ⟨"ARTS102", "Animation Basics",
       "Learn the principles of animation through simple projects and exercises.",
       "Builds storytelling skills and introduces motion design concepts.",
       "10 weeks", "9-16",
       ["visual", "kinesthetic", "creative"],
       ["creative", "persistent", "organized"],
       true, "June 8, 2025", 85, none⟩,
      ⟨"ARTS201", "Graphic Design Principles",
       "Learn fundamental design principles and industry-standard software.",
       "Develops visual communication skills applicable to many creative fields.",
       "12 weeks", "12-18",
       ["visual", "logical", "independent"],
       ["creative", "analytical", "organized"],
       true, "May 25, 2025", 82, none⟩,
      ⟨"ARTS301", "3D Modeling & Animation",
       "Create 3D models and animations using professional software.",
       "Prepares for careers in animation, game design, and visual effects.",
       "14 weeks", "14-18",
       ["visual", "logical", "kinesthetic"],
       ["creative", "analytical", "persistent"],
       false, "July 5, 2025", 80, none⟩]),
    ("entrepreneurship",
     [⟨"BIZ101", "Young Entrepreneurs",
       "Introduction to business concepts through fun, hands-on projects.",
       "Develops creative thinking and introduces basic business principles.",
       "8 weeks", "10-14",
       ["social", "kinesthetic", "auditory"],
       ["leadership", "creative", "collaborative"],
       true, "June 1, 2025", 85, none⟩,
      ⟨"BIZ102", "Design Thinking Workshop",
       "Learn the design thinking process to solve real-world problems.",
       "Builds problem-solving skills and introduces innovation methods.",
       "6 weeks", "11-16",
       ["visual", "kinesthetic", "social"],
       ["creative", "analytical", "collaborative"],
       true, "May 18, 2025", 80, none⟩,
      ⟨"BIZ201", "Business Plan Development",
       "Create a comprehensive business plan for an original business idea.",
       "Develops strategic thinking and planning skills.",
       "12 weeks", "13-18",
       ["logical", "social", "independent"],
       ["leadership", "analytical", "organized"],
       true, "June 15, 2025", 78, none⟩,
      ⟨"BIZ301", "Startup Incubator",
       "Launch a real micro-business with mentorship and support.",
       "Provides real-world entrepreneurial experience and portfolio development.",
       "16 weeks", "15-18",
       ["social", "logical", "independent"],
       ["leadership", "persistent", "creative"],
       false, "July 10, 2025", 88, none⟩]),
    ("science",
     [⟨"SCI101", "Junior Scientists",
       "Hands-on science experiments and projects across various disciplines.",
       "Develops scientific thinking and curiosity about the natural world.",
       "8 weeks", "8-12",
       ["kinesthetic", "logical", "visual"],
       ["analytical", "persistent", "creative"],
       true, "May 22, 2025", 86, none⟩,
      ⟨"SCI102", "Environmental Science Explorers",
       "Investigate environmental systems through field work and experiments.",
       "Builds awareness of environmental issues and scientific methods.",
       "10 weeks", "9-14",
       ["kinesthetic", "visual", "social"],
       ["analytical", "persistent", "collaborative"],
       true, "June 5, 2025", 82, none⟩,
      ⟨"SCI201", "Applied Physics",
       "Learn physics principles through hands-on engineering challenges.",
       "Develops problem-solving skills and understanding of physical systems.",
       "12 weeks", "12-16",
       ["kinesthetic", "logical", "visual"],
       ["analytical", "persistent", "creative"],
       true, "May 28, 2025", 78, none⟩,
      ⟨"SCI301", "Research Methods & Design",
       "Design and conduct original scientific research projects.",
       "Prepares for college-level research and science competitions.",
       "16 weeks", "14-18",
       ["logical", "independent", "visual"],
       ["analytical", "persistent", "organized"],
       false, "July 8, 2025", 75, none⟩]),
    ("language",
     [⟨"LANG101", "Creative Writing Workshop",
       "Develop creative writing skills through fun exercises and projects.",
       "Builds self-expression and communication skills.",
       "8 weeks", "8-14",
       ["auditory", "visual", "independent"],
       ["creative", "organized", "persistent"],
       true, "May 15, 2025", 84, none⟩,
      ⟨"LANG102", "Public Speaking Fundamentals",
       "Learn the basics of effective public speaking in a supportive environment.",
       "Develops confidence and verbal communication skills.",
       "8 weeks", "10-16",
       ["auditory", "social", "kinesthetic"],
       ["leadership", "collaborative", "persistent"],
       true, "June 10, 2025", 80, none⟩,
      ⟨"LANG201", "Digital Storytelling",
       "Create compelling stories using digital media and technology.",
       "Combines creative writing with digital media skills.",
       "10 weeks", "12-18",
       ["visual", "auditory", "independent"],
       ["creative", "analytical", "organized"],
       true, "May 25, 2025", 82, none⟩,
      ⟨"LANG301", "Content Creation & Publishing",
       "Create, edit, and publish original content across various platforms.",
       "Prepares for careers in writing, publishing, and digital media.",
       "14 weeks", "14-18",
       ["visual", "independent", "auditory"],
       ["creative", "organized", "persistent"],
       false, "July 1, 2025", 78, none⟩]) ]


/-- `str.split(sep)` on character lists (every occurrence splits). -/
def splitOnChar (sep : Char) : List Char → List (List Char)
  | [] => [[]]
  | c :: cs =>
    let r := splitOnChar sep cs
    if c = sep then [] :: r
    else
      match r with
      | h :: t => (c :: h) :: t
      | [] => [[c]]

/-- `int(part)` for the plain digit strings of the catalog age ranges. -/
def charsToNat? (l : List Char) : Option Nat :=
  if l.isEmpty then none
  else
    l.foldl
      (fun acc c =>
        match acc with
        | some n => if c.isDigit then some (n * 10 + (c.toNat - 48)) else none
        | none => none)
      (some 0)

/-- Parse an `"N-M"` age range with `min_age, max_age = map(int,
age_range.split("-"))`; any other shape fails the `"-" in age_range`
guard (or the int parse) in the source and the course is filtered out. -/
def parseAgeRange (s : String) : Option (Nat × Nat) :=
  if pyInStr "-" s then
    match splitOnChar (Char.ofNat 45) s.toList with
    | [a, b] =>
      match charsToNat? a, charsToNat? b with
      | some lo, some hi => some (lo, hi)
      | _, _ => none
    | _ => none
  else none

/-- `min_age <= student_age <= max_age` for a course. -/
def courseAgeMatches (student_age : Int) (c : Course) : Bool :=
  match parseAgeRange c.age_range with
  | some (lo, hi) => (lo : Int) ≤ student_age ∧ student_age ≤ (hi : Int)
  | none => false

/-- The category-recovery scan in `_calculate_course_fit_score`: first
catalog category whose course list holds a course with this id. -/
def findCourseCategory (catalog : List (String × List Course)) (course_id : String) :
    Option String :=
  match catalog.find? (fun p => p.2.any (fun c => c.id == course_id)) with
  | some p => some p.1
  | none => none

/-- `CourseRecommender._calculate_course_fit_score` (×10): 300 for a
primary style match, 50 per matching secondary style, 100/70/40 for the
first/second/third top trait found in the course traits, 200/150/100 if
the course category is the first/second/later top interest, plus the raw
popularity (= popularity/10 at scale ×10). -/
def calculate_course_fit_score (catalog : List (String × List Course))
    (course : Course) (primary_style : String)
    (secondary_styles traits interests : List String) : Nat :=
  let styleScore :=
    (if course.learning_styles.contains primary_style then 300 else 0) +
      50 * secondary_styles.countP (fun st => course.learning_styles.contains st)
  let traitScore :=
    ((traits.take 3).zip [100, 70, 40]).foldl
      (fun acc tw => if course.traits.contains tw.1 then acc + tw.2 else acc) 0
  let categoryScore :=
    match findCourseCategory catalog course.id with
    | some course_category =>
      if (interests.take 1).contains course_category then 200
      else if ((interests.drop 1).take 1).contains course_category then 150
      else if (interests.drop 2).contains course_category then 100
      else 0
    | none => 0
  styleScore + traitScore + categoryScore + course.popularity

/-- `style_benefits` of `_generate_personalized_benefit`. -/
def styleBenefits : List (String × String) :=
  [ ("visual",
     "The visual elements and demonstrations in this course align perfectly with your visual learning style."),
    ("auditory",
     "This course includes discussions and verbal explanations that match your auditory learning preference."),
    ("kinesthetic",
     "You\x27ll enjoy the hands-on activities in this course that suit your kinesthetic learning style."),
    ("logical",
     "The structured approach of this course complements your logical learning style."),
    ("social",
     "The collaborative aspects of this course are ideal for your social learning preference."),
    ("independent",
     "This course offers opportunities for self-directed learning that match your independent style.") ]

/-- `trait_benefits` of `_generate_personalized_benefit`. -/
def traitBenefits : List (String × String) :=
  [ ("creative",
     "Your creative thinking will be an asset in the innovative projects included in this course."),
    ("analytical",
     "Your analytical abilities will help you excel in the problem-solving aspects of this course."),
    ("persistent",
     "Your persistence will be valuable when tackling the challenging components of this course."),
    ("leadership",
     "Your leadership qualities will shine in the group activities included in this course."),
    ("collaborative",
     "Your collaborative nature will be beneficial in the team projects within this course."),
    ("organized",
     "Your organizational skills will help you manage the various components of this course effectively.") ]

/-- `CourseRecommender._generate_personalized_benefit` (the `interests`
argument is accepted and unused, as in the source). -/
def generate_personalized_benefit (course : Course) (learning_style : String)
    (traits _interests : List String) : String :=
  let style_benefit := (pyLookup styleBenefits learning_style).getD ""
  let trait_benefit :=
    match traits with
    | t :: _ => (pyLookup traitBenefits t).getD ""
    | [] => ""
  let personalized_benefit := course.benefits ++ " " ++ style_benefit
  if trait_benefit ≠ "" then personalized_benefit ++ " " ++ trait_benefit
  else personalized_benefit

/-- Stable descending insertion by score, the model of the stable
`scored_courses.sort(key=..., reverse=True)`. -/
def insertCourseDesc (p : Course × Nat) : List (Course × Nat) → List (Course × Nat)
  | [] => [p]
  | q :: rest =>
    if p.2 < q.2 then q :: insertCourseDesc p rest else p :: q :: rest

def sortCoursesByScoreDesc : List (Course × Nat) → List (Course × Nat)
  | [] => []
  | p :: rest => insertCourseDesc p (sortCoursesByScoreDesc rest)

/-- Stable descending sort by popularity for the backfill. -/
def insertByPopularityDesc (c : Course) : List Course → List Course
  | [] => [c]
  | q :: rest =>
    if c.popularity < q.popularity then q :: insertByPopularityDesc c rest
    else c :: q :: rest

def sortByPopularityDesc : List Course → List Course
  | [] => []
  | c :: rest => insertByPopularityDesc c (sortByPopularityDesc rest)

/-- The write `course["personalized_benefit"] = b` seen through the
catalog: update the (unique) course with this id. -/
def updateCourseBenefit (catalog : List (String × List Course)) (cid : String)
    (b : String) : List (String × List Course) :=
  catalog.map (fun p =>
    (p.1, p.2.map (fun c =>
      if c.id = cid then { c with personalized_benefit := some b } else c)))

/-- The final mutation loop of `recommend_courses`: one catalog write per
recommended course. -/
def applyBenefits (primary_style : String) (top_traits top_interests : List String)
    (cs : List Course) (catalog : List (String × List Course)) :
    List (String × List Course) :=
  cs.foldl
    (fun cat c =>
      updateCourseBenefit cat c.id
        (generate_personalized_benefit c primary_style top_traits top_interests))
    catalog

/-- `CourseRecommender.recommend_courses`. Returns the recommended list
(whose entries carry the freshly written benefit, as the source returns
the mutated dicts) together with the catalog after the writes. -/
def recommend_courses (student_age : Int) (primary_learning_style : String)
    (secondary_learning_styles top_traits top_interests : List String)
    (primary_category secondary_category : String) (count : Nat)
    (courses : List (String × List Course)) :
    List Course × List (String × List Course) :=
  let potential_courses :=
    (pyLookup courses primary_category).getD [] ++
      (if secondary_category ≠ primary_category then
        (pyLookup courses secondary_category).getD []
      else []) ++
      top_interests.foldl
        (fun acc interest =>
          if interest ≠ primary_category ∧ interest ≠ secondary_category then
            acc ++ (pyLookup courses interest).getD []
          else acc) []
  let age_appropriate_courses := potential_courses.filter (courseAgeMatches student_age)
  let age_appropriate_courses :=
    if age_appropriate_courses.isEmpty then potential_courses
    else age_appropriate_courses
  let scored_courses := age_appropriate_courses.map (fun c =>
    (c, calculate_course_fit_score courses c primary_learning_style
          secondary_learning_styles top_traits top_interests))
  let top_courses := ((sortCoursesByScoreDesc scored_courses).take count).map Prod.fst
  let top_courses :=
    if top_courses.length < count then
      let all_courses := courses.foldl (fun acc p => acc ++ p.2) []
      let additional_courses := all_courses.filter (fun c =>
        !top_courses.contains c && courseAgeMatches student_age c)
      top_courses ++ (sortByPopularityDesc additional_courses).take (count - top_courses.length)
    else top_courses
  (top_courses.map (fun c =>
     { c with
         personalized_benefit := some (generate_personalized_benefit c
           primary_learning_style top_traits top_interests) }),
   applyBenefits primary_learning_style top_traits top_interests top_courses courses)



/-- Erase every `personalized_benefit` key: the part of the catalog state
that `recommend_courses` is allowed to touch under the amended claim. -/
def stripBenefits (catalog : List (String × List Course)) :
    List (String × List Course) :=
  catalog.map (fun p =>
    (p.1, p.2.map (fun c => { c with personalized_benefit := none })))

theorem stripBenefits_updateCourseBenefit (catalog : List (String × List Course))
    (cid b : String) :
    stripBenefits (updateCourseBenefit catalog cid b) = stripBenefits catalog := by
  unfold stripBenefits updateCourseBenefit
  rw [List.map_map]
  refine List.map_congr_left (fun p _ => ?_)
  simp only [Function.comp_apply, List.map_map]
  refine congrArg (fun l => (p.1, l)) ?_
  refine List.map_congr_left (fun c _ => ?_)
  by_cases h : c.id = cid <;> simp [h]

theorem stripBenefits_applyBenefits (primary_style : String)
    (top_traits top_interests : List String) (cs : List Course)
    (catalog : List (String × List Course)) :
    stripBenefits (applyBenefits primary_style top_traits top_interests cs catalog) =
      stripBenefits catalog := by
  induction cs generalizing catalog with
  | nil => rfl
  | cons c rest ih =>
    unfold applyBenefits at ih ⊢
    rw [List.foldl_cons, ih, stripBenefits_updateCourseBenefit]

/-! ## Claim C3 -/

/-- C3 (counterexample): the claim says no call leaves any catalog
different; but `recommend_courses` writes a `personalized_benefit` key
into the selected course dicts, which live in the static catalog. For a
10-year-old visual learner interested in tech (pathway categories
tech/arts), the call changes the catalog (the TECH101, TECH102 and
ARTS101 entries gain the key). -/
theorem recommend_courses_mutates_catalog :
    (recommend_courses 10 "visual" [] [] ["tech"] "tech" "arts" 3 courseCatalog).2 ≠
      courseCatalog := by
  intro h
  have h2 := congrArg
    (fun catalog => match pyLookup catalog "tech" with
      | some (c :: _) => c.personalized_benefit
      | _ => none) h
  exact absurd h2 (by decide)

/-- C3 (amended): `recommend_courses` changes the course catalog only in
the `personalized_benefit` keys it writes on recommended courses; erasing
that key recovers the original catalog exactly, for every input. (All
other embedded components are plain functions of their inputs and touch
no catalog at all.) -/
theorem recommend_courses_frame (student_age : Int)
    (primary_learning_style : String)
    (secondary_learning_styles top_traits top_interests : List String)
    (primary_category secondary_category : String) (count : Nat) :
    stripBenefits
        (recommend_courses student_age primary_learning_style
          secondary_learning_styles top_traits top_interests primary_category
          secondary_category count courseCatalog).2 =
      stripBenefits courseCatalog :=
  stripBenefits_applyBenefits _ _ _ _ _


/-! ## Pathway mapper (`data/pathway_mapper.py`) and career advisor
(`data/career_advisor.py`)

The two modules duplicate the category-selection logic over duplicated
tables; each side is embedded separately from its own source. A Python
dict membership test (`x in self.courses` / `x in self.career_paths`) is
membership in the dict's key list, in insertion order. -/

structure PathwayCourse where
  id : String
  title : String
  courseDescription : String
  benefits : String
  duration : String
  age_range : String
deriving DecidableEq

/-- `LearningPathwayMapper.__init__`: the level-structured course catalog. -/
def pathwayCourses : List (String × List (String × List PathwayCourse)) :=
  [ ("tech",
     [("entry",
       [⟨"TECH101", "Introduction to Coding",
         "A beginner-friendly introduction to programming concepts using block-based coding.",
         "Builds logical thinking and introduces fundamental programming concepts.",
         "8 weeks", "8-14"⟩,
        ⟨"TECH102", "Robotics Fundamentals",
         "Hands-on introduction to robotics using LEGO Mindstorms or similar platforms.",
         "Develops problem-solving skills and introduces engineering concepts.",
         "10 weeks", "9-16"⟩]),
      ("intermediate",
       [⟨"TECH201", "Python Programming",
         "Learn Python programming language fundamentals through practical projects.",
         "Builds real-world coding skills applicable to many technology fields.",
         "12 weeks", "12-18"⟩,
        ⟨"TECH202", "Web Development Basics",
         "Introduction to HTML, CSS, and JavaScript for creating interactive websites.",
         "Develops creative and technical skills for the digital world.",
         "10 weeks", "13-18"⟩]),
      ("advanced",
       [⟨"TECH301", "AI & Machine Learning",
         "Introduction to artificial intelligence concepts and machine learning applications.",
         "Prepares students for cutting-edge technology careers.",
         "14 weeks", "14-18"⟩,
        ⟨"TECH302", "Mobile App Development",
         "Design and build mobile applications for iOS and Android platforms.",
         "Creates portfolio-ready projects and introduces software development lifecycle.",
         "16 weeks", "14-18"⟩])]),
    ("arts",
     [("entry",
       [⟨"ARTS101", "Digital Art Fundamentals",
         "Introduction to digital art creation using tablets and beginner-friendly software.",
         "Develops creative expression and introduces digital tools.",
         "8 weeks", "8-16"⟩,
        ⟨"ARTS102", "Animation Basics",
         "Learn the principles of animation through simple projects and exercises.",
         "Builds storytelling skills and introduces motion design concepts.",
         "10 weeks", "9-16"⟩]),
      ("intermediate",
       [⟨"ARTS201", "Graphic Design Principles",
         "Learn fundamental design principles and industry-standard software.",
         "Develops visual communication skills applicable to many creative fields.",
         "12 weeks", "12-18"⟩,
        ⟨"ARTS202", "Digital Photography & Editing",
         "Master digital photography techniques and photo editing software.",
         "Creates portfolio-quality work and develops visual storytelling abilities.",
         "10 weeks", "12-18"⟩]),
      ("advanced",
       [⟨"ARTS301", "3D Modeling & Animation",
         "Create 3D models and animations using professional software.",
         "Prepares for careers in animation, game design, and visual effects.",
         "14 weeks", "14-18"⟩,
        ⟨"ARTS302", "Digital Media Portfolio",
         "Create a professional portfolio of digital art and design projects.",
         "Prepares students for college applications or freelance opportunities.",
         "16 weeks", "15-18"⟩])]),
    ("entrepreneurship",
     [("entry",
       [⟨"BIZ101", "Young Entrepreneurs",
         "Introduction to business concepts through fun, hands-on projects.",
         "Develops creative thinking and introduces basic business principles.",
         "8 weeks", "10-14"⟩,
        ⟨"BIZ102", "Design Thinking Workshop",
         "Learn the design thinking process to solve real-world problems.",
         "Builds problem-solving skills and introduces innovation methods.",
         "6 weeks", "11-16"⟩]),
      ("intermediate",
       [⟨"BIZ201", "Business Plan Development",
         "Create a comprehensive business plan for an original business idea.",
         "Develops strategic thinking and planning skills.",
         "12 weeks", "13-18"⟩,
        ⟨"BIZ202", "Digital Marketing Essentials",
         "Learn effective digital marketing strategies for business growth.",
         "Builds practical skills for promoting products and services online.",
         "10 weeks", "14-18"⟩]),
      ("advanced",
       [⟨"BIZ301", "Startup Incubator",
         "Launch a real micro-business with mentorship and support.",
         "Provides real-world entrepreneurial experience and portfolio development.",
         "16 weeks", "15-18"⟩,
        ⟨"BIZ302", "Leadership & Management",
         "Develop leadership skills and learn effective team management.",
         "Prepares for leadership roles in business and organizations.",
         "12 weeks", "15-18"⟩])]),
    ("science",
     [("entry",
       [⟨"SCI101", "Junior Scientists",
         "Hands-on science experiments and projects across various disciplines.",
         "Develops scientific thinking and curiosity about the natural world.",
         "8 weeks", "8-12"⟩,
        ⟨"SCI102", "Environmental Science Explorers",
         "Investigate environmental systems through field work and experiments.",
         "Builds awareness of environmental issues and scientific methods.",
         "10 weeks", "9-14"⟩]),
      ("intermediate",
       [⟨"SCI201", "Applied Physics",
         "Learn physics principles through hands-on engineering challenges.",
         "Develops problem-solving skills and understanding of physical systems.",
         "12 weeks", "12-16"⟩,
        ⟨"SCI202", "Biotechnology Basics",
         "Introduction to biotechnology concepts and laboratory techniques.",
         "Builds understanding of cutting-edge biological sciences.",
         "12 weeks", "13-18"⟩]),
      ("advanced",
       [⟨"SCI301", "Research Methods & Design",
         "Design and conduct original scientific research projects.",
         "Prepares for college-level research and science competitions.",
         "16 weeks", "14-18"⟩,
        ⟨"SCI302", "Data Science & Analytics",
         "Learn to collect, analyze, and visualize data for scientific insights.",
         "Develops valuable skills for research and data-driven fields.",
         "14 weeks", "15-18"⟩])]),
    ("language",
     [("entry",
       [⟨"LANG101", "Creative Writing Workshop",
         "Develop creative writing skills through fun exercises and projects.",
         "Builds self-expression and communication skills.",
         "8 weeks", "8-14"⟩,
        ⟨"LANG102", "Public Speaking Fundamentals",
         "Learn the basics of effective public speaking in a supportive environment.",
         "Develops confidence and verbal communication skills.",
         "8 weeks", "10-16"⟩]),
      ("intermediate",
       [⟨"LANG201", "Digital Storytelling",
         "Create compelling stories using digital media and technology.",
         "Combines creative writing with digital media skills.",
         "10 weeks", "12-18"⟩,
        ⟨"LANG202", "Debate & Argumentation",
         "Master the art of constructing and delivering persuasive arguments.",
         "Develops critical thinking and advanced communication skills.",
         "12 weeks", "13-18"⟩]),
      ("advanced",
       [⟨"LANG301", "Content Creation & Publishing",
         "Create, edit, and publish original content across various platforms.",
         "Prepares for careers in writing, publishing, and digital media.",
         "14 weeks", "14-18"⟩,
        ⟨"LANG302", "Professional Communication",
         "Master business writing, presentations, and professional communication.",
         "Develops essential skills for college and career success.",
         "12 weeks", "15-18"⟩])]) ]

/-- The keys of `LearningPathwayMapper.__init__`'s `self.courses`, in
insertion order (see `pathwayCourses_keys`). -/
def pathwayCourseCategories : List String :=
  ["tech", "arts", "entrepreneurship", "science", "language"]

theorem pathwayCourses_keys :
    pathwayCourses.map Prod.fst = pathwayCourseCategories := rfl

/-- `self.learning_style_mappings` of the pathway mapper. -/
def pathwayLearningStyleMappings : List (String × List String) :=
  [ ("visual", ["arts", "tech"]),
    ("auditory", ["language", "science"]),
    ("kinesthetic", ["tech", "science"]),
    ("logical", ["science", "tech"]),
    ("social", ["entrepreneurship", "language"]),
    ("independent", ["science", "arts"]) ]

/-- `self.trait_mappings` of the pathway mapper. -/
def pathwayTraitMappings : List (String × List String) :=
  [ ("creative", ["arts", "language"]),
    ("analytical", ["science", "tech"]),
    ("persistent", ["tech", "science"]),
    ("leadership", ["entrepreneurship", "language"]),
    ("collaborative", ["entrepreneurship", "language"]),
    ("organized", ["science", "entrepreneurship"]) ]

/-- Second priority of `_determine_primary_category`: map the learning
style, preferring a secondary interest inside the style's category pair,
else the pair's first entry; an unmapped style falls through to the trait
priority. (The style pairs are never empty, so the `headD` default is
unreachable.) -/
def pathwayPrimaryStep2 (interests : List String) (learning_style : String)
    (traits : List String) : String :=
  match pyLookup pathwayLearningStyleMappings learning_style with
  | some style_categories =>
    match (interests.drop 1).find? (fun i => style_categories.contains i) with
    | some i => i
    | none => style_categories.headD "tech"
  | none =>
    match traits with
    | t0 :: _ =>
      match pyLookup pathwayTraitMappings t0 with
      | some cats => cats.headD "tech"
      | none => "tech"
    | [] => "tech"

/-- `LearningPathwayMapper._determine_primary_category`. -/
def pathway_determine_primary_category (interests : List String)
    (learning_style : String) (traits : List String) : String :=
  match interests with
  | i0 :: _ =>
    if pathwayCourseCategories.contains i0 then i0
    else pathwayPrimaryStep2 interests learning_style traits
  | [] => pathwayPrimaryStep2 interests learning_style traits

/-- `LearningPathwayMapper._determine_secondary_category`: first interest
in the catalog different from the primary; else the first style-mapped
category different from the primary; else the first trait-mapped category
different from the primary; else the first catalog category different
from the primary; else (single-category degenerate case) the primary. -/
def pathway_determine_secondary_category (primary_category : String)
    (interests : List String) (learning_style : String)
    (traits : List String) : String :=
  match interests.find? (fun i =>
      pathwayCourseCategories.contains i && !(i == primary_category)) with
  | some i => i
  | none =>
    match (pyLookup pathwayLearningStyleMappings learning_style).bind
        (fun cats => cats.find? (fun c => !(c == primary_category))) with
    | some c => c
    | none =>
      match (match traits with
             | t0 :: _ =>
               (pyLookup pathwayTraitMappings t0).bind
                 (fun cats => cats.find? (fun c => !(c == primary_category)))
             | [] => none) with
      | some c => c
      | none =>
        match pathwayCourseCategories.find? (fun c => !(c == primary_category)) with
        | some c => c
        | none => primary_category

/-- The placeholder returned by `_select_course` when a category/level
bucket is empty. -/
def unavailableCourse : PathwayCourse :=
  ⟨"N/A", "Course Not Available",
   "No suitable course found for this category and level.",
   "Please contact an advisor for alternatives.", "N/A", "N/A"⟩

/-- Age filter of `_select_course` (same `"N-M"` parse as the course
recommender). -/
def pathwayAgeMatches (student_age : Int) (c : PathwayCourse) : Bool :=
  match parseAgeRange c.age_range with
  | some (lo, hi) => (lo : Int) ≤ student_age ∧ student_age ≤ (hi : Int)
  | none => false

/-- `LearningPathwayMapper._select_course`: the category/level bucket
filtered by age; first age-appropriate course, else the bucket's first
course, else the placeholder. -/
def select_course (category level : String) (student_age : Int) : PathwayCourse :=
  let available_courses :=
    ((pyLookup pathwayCourses category).bind (fun levels => pyLookup levels level)).getD []
  match available_courses with
  | [] => unavailableCourse
  | c0 :: _ =>
    match available_courses.filter (pathwayAgeMatches student_age) with
    | [] => c0
    | s0 :: _ => s0

structure PathwayStepOne where
  title : String
  stepDescription : String
  primary_course : PathwayCourse
  complementary_course : PathwayCourse
deriving DecidableEq

structure PathwayStepCourse where
  title : String
  stepDescription : String
  course : PathwayCourse
deriving DecidableEq

structure PathwayResult where
  primary_category : String
  secondary_category : String
  step1 : PathwayStepOne
  step2 : PathwayStepCourse
  step3 : PathwayStepCourse
deriving DecidableEq

/-- `LearningPathwayMapper.generate_pathway`, over the analysis
projections it reads (primary style, top traits, top interests) and the
student age. -/
def generate_pathway (student_age : Int) (primary_learning_style : String)
    (top_traits top_interests : List String) : PathwayResult :=
  let primary_category :=
    pathway_determine_primary_category top_interests primary_learning_style top_traits
  let secondary_category :=
    pathway_determine_secondary_category primary_category top_interests
      primary_learning_style top_traits
  { primary_category := primary_category,
    secondary_category := secondary_category,
    step1 :=
      ⟨"Building Your Foundation",
       "Start with these courses to build core skills in your areas of interest and strength.",
       select_course primary_category "entry" student_age,
       select_course secondary_category "entry" student_age⟩,
    step2 :=
      ⟨"Expanding Your Skills",
       "Once you\x27ve mastered the basics, these courses will help you develop more advanced abilities.",
       select_course primary_category "intermediate" student_age⟩,
    step3 :=
      ⟨"Specializing Your Expertise",
       "These advanced courses will prepare you for real-world applications and future opportunities.",
       select_course primary_category "advanced" student_age⟩ }

/-- The keys of `CareerAffinityAdvisor.__init__`'s `self.career_paths`,
in insertion order; the advisor's category selection only tests
membership in this dict. -/
def careerPathKeys : List String :=
  ["tech", "arts", "entrepreneurship", "science", "language"]

/-- The `learning_style_mappings` literal inside
`CareerAffinityAdvisor._determine_primary_category`. -/
def careerLearningStyleMappings : List (String × List String) :=
  [ ("visual", ["arts", "tech"]),
    ("auditory", ["language", "science"]),
    ("kinesthetic", ["tech", "science"]),
    ("logical", ["science", "tech"]),
    ("social", ["entrepreneurship", "language"]),
    ("independent", ["science", "arts"]) ]

/-- The `trait_mappings` literal inside
`CareerAffinityAdvisor._determine_primary_category`. -/
def careerTraitMappings : List (String × List String) :=
  [ ("creative", ["arts", "language"]),
    ("analytical", ["science", "tech"]),
    ("persistent", ["tech", "science"]),
    ("leadership", ["entrepreneurship", "language"]),
    ("collaborative", ["entrepreneurship", "language"]),
    ("organized", ["science", "entrepreneurship"]) ]

/-- Second and third priorities of the advisor's
`_determine_primary_category` (same shape as the mapper's). -/
def careerPrimaryStep2 (interests : List String) (learning_style : String)
    (traits : List String) : String :=
  match pyLookup careerLearningStyleMappings learning_style with
  | some style_categories =>
    match (interests.drop 1).find? (fun i => style_categories.contains i) with
    | some i => i
    | none => style_categories.headD "tech"
  | none =>
    match traits with
    | t0 :: _ =>
      match pyLookup careerTraitMappings t0 with
      | some cats => cats.headD "tech"
      | none => "tech"
    | [] => "tech"

/-- `CareerAffinityAdvisor._determine_primary_category`. -/
def career_determine_primary_category (interests : List String)
    (learning_style : String) (traits : List String) : String :=
  match interests with
  | i0 :: _ =>
    if careerPathKeys.contains i0 then i0
    else careerPrimaryStep2 interests learning_style traits
  | [] => careerPrimaryStep2 interests learning_style traits


/-! ## Claims C9, C10 -/

/-- C9: the Pathway Mapper and the Career Advisor determine the primary
category identically for every profile: both run the chain (first
interest in the catalog; else style-mapped pair preferring a secondary
interest; else first trait's first mapped category; else "tech") over
duplicated but equal tables and the same five catalog categories. -/
theorem determine_primary_category_equivalence (interests : List String)
    (learning_style : String) (traits : List String) :
    pathway_determine_primary_category interests learning_style traits =
      career_determine_primary_category interests learning_style traits := rfl

/-- The fallback chain of `_determine_secondary_category` always lands on
a category different from the primary: every branch returns under a
guard `!= primary`, and the final scan of the five catalog categories
always finds one (at most one of "tech"/"arts" can equal the primary), so
the degenerate `return primary_category` is unreachable. -/
theorem pathway_secondary_ne_primary (primary_category : String)
    (interests : List String) (learning_style : String) (traits : List String) :
    pathway_determine_secondary_category primary_category interests
      learning_style traits ≠ primary_category := by
  unfold pathway_determine_secondary_category
  cases h1 : interests.find? (fun i =>
      pathwayCourseCategories.contains i && !(i == primary_category)) with
  | some i =>
    have hp := List.find?_some h1
    simp only [Bool.and_eq_true, bne_iff_ne, ne_eq] at hp
    simpa using hp.2
  | none =>
    cases h2 : (pyLookup pathwayLearningStyleMappings learning_style).bind
        (fun cats => cats.find? (fun c => !(c == primary_category))) with
    | some c =>
      rcases Option.bind_eq_some.mp h2 with ⟨cats, -, hf⟩
      have hp := List.find?_some hf
      simpa using hp
    | none =>
      cases h3 : (match traits with
                  | t0 :: _ =>
                    (pyLookup pathwayTraitMappings t0).bind
                      (fun cats => cats.find? (fun c => !(c == primary_category)))
                  | [] => none) with
      | some c =>
        match traits, h3 with
        | t0 :: _, h3 =>
          rcases Option.bind_eq_some.mp h3 with ⟨cats, -, hf⟩
          have hp := List.find?_some hf
          simpa using hp
      | none =>
        cases h4 : pathwayCourseCategories.find? (fun c => !(c == primary_category)) with
        | some c =>
          have hp := List.find?_some h4
          simpa using hp
        | none =>
          exfalso
          have hall := List.find?_eq_none.mp h4
          have ht := hall "tech" (by simp [pathwayCourseCategories])
          have ha := hall "arts" (by simp [pathwayCourseCategories])
          simp at ht ha
          rw [← ht] at ha
          exact absurd ha (by decide)

/-- C10: for every student age and profile, the pathway produced by
`generate_pathway` has a secondary category different from its primary
category. -/
theorem generate_pathway_secondary_ne_primary (student_age : Int)
    (primary_learning_style : String) (top_traits top_interests : List String) :
    (generate_pathway student_age primary_learning_style top_traits
        top_interests).secondary_category ≠
      (generate_pathway student_age primary_learning_style top_traits
        top_interests).primary_category :=
  pathway_secondary_ne_primary _ _ _ _


end LearningLens
